import Mathlib

/-!
Verification development for the authentication and request-validation core
of the we-meet-server repository (NestJS + Prisma).

The embedding translates the TypeScript sources into Lean:
  - `src/common/filters/global-exception.filter.ts` (GlobalExceptionFilter)
  - `src/auth/auth.service.ts` (AuthService.register, AuthService.login)
  - `src/users/users.repository.ts` (UsersRepository over the Prisma client)
  - `src/users/dto/user-response.dto.ts` (UserResponseDto with class-level
    Exclude and per-field Expose, consumed through plainToInstance)
  - `src/auth/dto/register.dto.ts` (RegisterDto) and the global
    ValidationPipe configured in `src/main.ts` with whitelist and
    forbidNonWhitelisted both true
  - the Prisma `users` table with its unique index on `email`
    (prisma/migrations/20260205024106_add_user_model/migration.sql)

External libraries (bcrypt, the JWT signer, the isEmail predicate of
class-validator) are parameters of the definitions that call them, so the
theorems quantify over their behaviour instead of guessing it.
-/

/-- JSON-like runtime values, used for raw request bodies and serialized
response bodies. -/
inductive JVal where
  | str (s : String)
  | num (n : Int)
  | bool (b : Bool)
  | null
  | arr (xs : List JVal)
  | obj (fields : List (String × JVal))

/-- Row of the Prisma `users` table: id, email (unique), passwordHash,
nullable name, role (default USER), createdAt, updatedAt. Timestamps and
ids are opaque strings here. -/
structure User where
  id : String
  email : String
  passwordHash : String
  name : Option String
  role : String
  createdAt : String
  updatedAt : String
deriving Repr, DecidableEq

/-- Body that a NestJS HttpException carries: `getResponse()` returns
either a plain string or an object; the filter reads the optional
`message` and `errors` members of an object body. The `message` member is
any runtime value (the validation pipe puts an array of strings there). -/
inductive ExcBody where
  | str (s : String)
  | obj (message : Option JVal) (errors : Option JVal)

/-- A thrown JavaScript value as the catch-all exception filter sees it:
a NestJS HttpException (with status, response body and fallback
`exception.message`), a plain Error (message and stack), or a non-Error
value. -/
inductive Thrown where
  | httpException (status : Nat) (body : ExcBody) (fallbackMessage : String)
  | jsError (message : String) (stack : String)
  | nonError (value : String)

/-- ConflictException msg: status 409, object body with that message. -/
def conflictException (msg : String) : Thrown :=
  .httpException 409 (.obj (some (.str msg)) none) msg

/-- UnauthorizedException msg: status 401, object body with that message. -/
def unauthorizedException (msg : String) : Thrown :=
  .httpException 401 (.obj (some (.str msg)) none) msg

/-- InternalServerErrorException msg: status 500, object body with that
message. -/
def internalServerErrorException (msg : String) : Thrown :=
  .httpException 500 (.obj (some (.str msg)) none) msg

/-- BadRequestException built by the default exceptionFactory of the
global ValidationPipe: status 400 and an object body whose message member
is the ARRAY of constraint messages (NestJS puts the per-field detail in
`message`, and sets no `errors` member). -/
def validationPipeException (constraintMessages : List String) : Thrown :=
  .httpException 400 (.obj (some (.arr (constraintMessages.map .str))) none)
    "Bad Request"

/-- Duplicate-key driver message of Prisma error code P2002 on the unique
index users_email_key. -/
def prismaUniqueViolationMessage : String :=
  "Unique constraint failed on the fields: (email)"

/-- Stack text of the Prisma duplicate-key error, visible to the filter
only through `exception.stack`. -/
def prismaUniqueViolationStack : String :=
  "PrismaClientKnownRequestError: P2002 at PrismaClient.user.create"

/-- Duplicate insert rejection of the Credential Store as a thrown value.
PrismaClientKnownRequestError extends Error but is not an HttpException,
so the filter sees it through its `instanceof Error` branch. -/
def prismaUniqueViolation : Thrown :=
  .jsError prismaUniqueViolationMessage prismaUniqueViolationStack

/-- Shape assembled by GlobalExceptionFilter.catch before serialization;
`errors` is attached only when defined. The `message` field is typed
string in the source but holds whatever value was read off the exception
body at runtime, hence `JVal` here. -/
structure ErrorResponse where
  statusCode : Nat
  message : JVal
  errors : Option JVal
  timestamp : String
  path : String

/-- GlobalExceptionFilter.catch from global-exception.filter.ts: start
from status 500 and the generic message; an HttpException overrides both
from its status and response body (object body: `message ?? exception.message`
and `errors`; string body: the string); a plain Error overrides the
message with `exception.message`; anything else keeps the defaults. -/
def globalExceptionFilterCatch (exception : Thrown) (timestamp path : String) :
    ErrorResponse :=
  match exception with
  | .httpException status body fallbackMessage =>
    match body with
    | .obj msg errs =>
      { statusCode := status, message := msg.getD (.str fallbackMessage),
        errors := errs, timestamp := timestamp, path := path }
    | .str s =>
      { statusCode := status, message := .str s, errors := none,
        timestamp := timestamp, path := path }
  | .jsError msg _stack =>
    { statusCode := 500, message := .str msg, errors := none,
      timestamp := timestamp, path := path }
  | .nonError _ =>
    { statusCode := 500, message := .str "Internal server error",
      errors := none, timestamp := timestamp, path := path }

/-- Body written by `response.status(status).json(errorResponse)`: the
literal keys statusCode, message, timestamp, path, with errors appended
only when it was defined. -/
def serializeErrorResponse (r : ErrorResponse) : List (String × JVal) :=
  [("statusCode", .num r.statusCode), ("message", r.message),
   ("timestamp", .str r.timestamp), ("path", .str r.path)]
  ++ (match r.errors with
      | some e => [("errors", e)]
      | none => [])

/-- Keys exposed on UserResponseDto (class decorated with Exclude, each of
these six fields decorated with Expose), from user-response.dto.ts. -/
def userResponseExposedKeys : List String :=
  ["id", "email", "name", "role", "createdAt", "updatedAt"]

/-- The plain key-value view of a User row as the ORM hands it to the
service: every column, the password hash included. -/
def userPlainObject (u : User) : List (String × JVal) :=
  [("id", .str u.id), ("email", .str u.email),
   ("passwordHash", .str u.passwordHash),
   ("name", match u.name with | some n => .str n | none => .null),
   ("role", .str u.role), ("createdAt", .str u.createdAt),
   ("updatedAt", .str u.updatedAt)]

/-- plainToInstance of class-transformer on a class carrying a class-level
Exclude decorator: the exclusion strategy is excludeAll, so the produced
instance holds exactly the keys listed by the Expose decorators, each
value copied from the plain object when present there. -/
def plainToInstanceExcludeAll (exposedKeys : List String)
    (plain : List (String × JVal)) : List (String × JVal) :=
  exposedKeys.filterMap fun k =>
    (plain.find? (fun p => p.1 == k)).map fun p => (k, p.2)

/-- Public profile returned by register and inside the login response:
plainToInstance of UserResponseDto applied to the User row. -/
def toPublicProfile (u : User) : List (String × JVal) :=
  plainToInstanceExcludeAll userResponseExposedKeys (userPlainObject u)

/-- Body of a successful login, from AuthResponseDto as built in
AuthService.login: the public profile under `user` plus the signed token. -/
def serializeLoginSuccess (u : User) (accessToken : String) :
    List (String × JVal) :=
  [("user", .obj (toPublicProfile u)), ("accessToken", .str accessToken)]

/-- UsersRepository.findByEmail: prisma user.findUnique on the email
column, an exact case-sensitive string match on a TEXT unique index. -/
def findByEmail (store : List User) (email : String) : Option User :=
  store.find? fun u => u.email == email

/-- prisma user.create under the unique index users_email_key: the insert
is rejected with the P2002 duplicate-key error when a row with exactly
this email already exists, otherwise the row is appended. -/
def prismaUserCreate (store : List User) (u : User) :
    Except Thrown (List User) :=
  if (store.find? fun v => v.email == u.email).isSome then
    .error prismaUniqueViolation
  else
    .ok (store ++ [u])

/-- Outcome of bcrypt.hash: a digest, or a rejected promise. -/
inductive HashOutcome where
  | ok (digest : String)
  | error
deriving Repr, DecidableEq

/-- Validated registration input (RegisterDto after the pipe): email,
password, optional name. -/
structure RegisterData where
  email : String
  password : String
  name : Option String
deriving Repr, DecidableEq

/-- Validated login input (LoginDto after the pipe): email and password. -/
structure LoginData where
  email : String
  password : String
deriving Repr, DecidableEq

/-- Coercion `name || null` applied at the create call site in
AuthService.register: undefined and the empty string (the only falsy
string) both become null, every other string passes through. -/
def coerceName (name : Option String) : Option String :=
  match name with
  | none => none
  | some s => if s == "" then none else some s

/-- AuthService.register, with the two Credential Store interactions
split over two store snapshots. `checkStore` is the state the
findByEmail pre-check reads and `insertStore` the state the create runs
against; in a sequential run the two coincide (see `register`), and in a
race a concurrent registration may commit between the two awaits, so the
snapshots differ. Steps, as in the source: findByEmail pre-check throwing
ConflictException; bcrypt.hash guarded by try/catch rethrowing
InternalServerErrorException; usersRepository.create with the name
coercion, NOT guarded by any try/catch, so a store rejection propagates
unchanged; finally plainToInstance of UserResponseDto. The external
hasher is a parameter; `newId` and `ts` stand for the id and timestamps
the store assigns. Returns the outcome plus the store state after the
call. -/
def registerAt (hash : String → HashOutcome) (newId ts : String)
    (checkStore insertStore : List User) (dto : RegisterData) :
    Except Thrown (List (String × JVal)) × List User :=
  match findByEmail checkStore dto.email with
  | some _ => (.error (conflictException "Email already exists"), insertStore)
  | none =>
    match hash dto.password with
    | .error =>
      (.error (internalServerErrorException "Failed to hash password"),
       insertStore)
    | .ok digest =>
      let user : User :=
        { id := newId, email := dto.email, passwordHash := digest,
          name := coerceName dto.name, role := "USER",
          createdAt := ts, updatedAt := ts }
      match prismaUserCreate insertStore user with
      | .error e => (.error e, insertStore)
      | .ok store' => (.ok (toPublicProfile user), store')

/-- AuthService.register in a sequential run: pre-check and insert read
and write the same store state. -/
def register (hash : String → HashOutcome) (newId ts : String)
    (store : List User) (dto : RegisterData) :
    Except Thrown (List (String × JVal)) × List User :=
  registerAt hash newId ts store store dto

/-- AuthService.login: findByEmail, then bcrypt.compare against the
stored hash, then jwtService.sign over the payload of userId and email;
both the missing-user and the mismatch branch throw
UnauthorizedException with the same message. The external comparator and
signer are parameters. -/
def login (compare : String → String → Bool)
    (sign : String → String → String) (store : List User) (dto : LoginData) :
    Except Thrown (List (String × JVal)) :=
  match findByEmail store dto.email with
  | none => .error (unauthorizedException "Invalid credentials")
  | some user =>
    if compare dto.password user.passwordHash then
      .ok (serializeLoginSuccess user (sign user.id user.email))
    else
      .error (unauthorizedException "Invalid credentials")

/-- Field names declared on RegisterDto (register.dto.ts): email,
password, optional name. -/
def registerDeclaredFields : List String := ["email", "password", "name"]

/-- Modelled from the spec: the LoginDto source file is not under src
(only its imports are), so its declared fields follow the spec section on
external interfaces — login input is an object of email and password. -/
def loginDeclaredFields : List String := ["email", "password"]

/-- Constraint messages of the forbidNonWhitelisted option of the global
ValidationPipe (main.ts sets whitelist and forbidNonWhitelisted to true):
one "property X should not exist" message per input key that no decorated
DTO field declares. -/
def whitelistViolations (declared : List String)
    (raw : List (String × JVal)) : List String :=
  (raw.filter fun p => !(declared.contains p.1)).map
    fun p => "property " ++ p.1 ++ " should not exist"

/-- Constraint messages for the email field of RegisterDto (IsEmail and
IsNotEmpty); the isEmail predicate of class-validator is a parameter. -/
def registerEmailViolations ( is_email : String → Bool)
    (raw : List (String × JVal)) : List String :=
  match raw.find? fun p => p.1 == "email" with
  | some (_, .str s) => if is_email s then [] else ["email must be an email"]
  | some _ => ["email must be an email"]
  | none => ["email should not be empty", "email must be an email"]

/-- Constraint messages for the password field of RegisterDto (IsString,
IsNotEmpty, MinLength 6 with a custom message). -/
def registerPasswordViolations (raw : List (String × JVal)) : List String :=
  match raw.find? fun p => p.1 == "password" with
  | some (_, .str s) =>
    if s.length < 6 then ["Password must be at least 6 characters long"]
    else []
  | some _ => ["password must be a string"]
  | none => ["password should not be empty", "password must be a string"]

/-- Constraint messages for the optional name field of RegisterDto
(IsString, IsOptional): absence is fine, a present value must be a
string. -/
def registerNameViolations (raw : List (String × JVal)) : List String :=
  match raw.find? fun p => p.1 == "name" with
  | some (_, .str _) => []
  | some _ => ["name must be a string"]
  | none => []

/-- All constraint messages the global ValidationPipe collects on a raw
register body before deciding. -/
def registerViolations ( is_email : String → Bool)
    (raw : List (String × JVal)) : List String :=
  whitelistViolations registerDeclaredFields raw
    ++ registerEmailViolations is_email raw
    ++ registerPasswordViolations raw
    ++ registerNameViolations raw

/-- Reads the declared RegisterDto fields out of a raw body that passed
validation (string values, name optional). -/
def extractRegisterData (raw : List (String × JVal)) : RegisterData :=
  { email := match raw.find? fun p => p.1 == "email" with
             | some (_, .str s) => s
             | _ => ""
    password := match raw.find? fun p => p.1 == "password" with
                | some (_, .str s) => s
                | _ => ""
    name := match raw.find? fun p => p.1 == "name" with
            | some (_, .str s) => some s
            | _ => none }

/-- The global ValidationPipe applied to a register body: if any
constraint message was collected, throw the BadRequestException carrying
all of them; otherwise hand the typed DTO to the controller. -/
def validateRegisterBody ( is_email : String → Bool)
    (raw : List (String × JVal)) : Except Thrown RegisterData :=
  match registerViolations is_email raw with
  | [] => .ok (extractRegisterData raw)
  | violations => .error (validationPipeException violations)

/-- Modelled from the spec: constraint messages for the LoginDto fields,
email and password both required strings, per the spec section on
external interfaces (the LoginDto source file is not under src). -/
def loginFieldViolations (raw : List (String × JVal)) : List String :=
  (match raw.find? fun p => p.1 == "email" with
   | some (_, .str _) => []
   | some _ => ["email must be a string"]
   | none => ["email should not be empty"])
  ++ (match raw.find? fun p => p.1 == "password" with
      | some (_, .str _) => []
      | some _ => ["password must be a string"]
      | none => ["password should not be empty"])

/-- All constraint messages the global ValidationPipe collects on a raw
login body. -/
def loginViolations (raw : List (String × JVal)) : List String :=
  whitelistViolations loginDeclaredFields raw ++ loginFieldViolations raw

/-- Reads the declared LoginDto fields out of a validated raw body. -/
def extractLoginData (raw : List (String × JVal)) : LoginData :=
  { email := match raw.find? fun p => p.1 == "email" with
             | some (_, .str s) => s
             | _ => ""
    password := match raw.find? fun p => p.1 == "password" with
                | some (_, .str s) => s
                | _ => "" }

/-- The global ValidationPipe applied to a login body. -/
def validateLoginBody (raw : List (String × JVal)) : Except Thrown LoginData :=
  match loginViolations raw with
  | [] => .ok (extractLoginData raw)
  | violations => .error (validationPipeException violations)

/-- POST /auth/register as wired in main.ts and auth.controller.ts: the
global ValidationPipe gates the body, and only a validated DTO reaches
AuthService.register; a pipe rejection leaves the store untouched. -/
def handleRegister (hash : String → HashOutcome)
    ( is_email : String → Bool) (newId ts : String) (store : List User)
    (raw : List (String × JVal)) :
    Except Thrown (List (String × JVal)) × List User :=
  match validateRegisterBody is_email raw with
  | .error e => (.error e, store)
  | .ok dto => register hash newId ts store dto

/-- POST /auth/login as wired in main.ts and auth.controller.ts. -/
def handleLogin (compare : String → String → Bool)
    (sign : String → String → String) (store : List User)
    (raw : List (String × JVal)) :
    Except Thrown (List (String × JVal)) :=
  match validateLoginBody raw with
  | .error e => .error e
  | .ok dto => login compare sign store dto

/-- Concrete stand-in for bcrypt.hash used by closed witnesses: a total
injective digest former. -/
def hashModel (p : String) : HashOutcome := .ok ("bcrypt(" ++ p ++ ")")

/-- Concrete stand-in for bcrypt.compare used by closed witnesses,
matching `hashModel`. -/
def compareModel (p digest : String) : Bool := digest == "bcrypt(" ++ p ++ ")"

/-- Concrete stand-in for jwtService.sign used by closed witnesses. -/
def signModel (userId email : String) : String :=
  "token(" ++ userId ++ "," ++ email ++ ")"

/-- Sample stored user row used by closed witnesses. -/
def sampleUser : User :=
  { id := "u1", email := "a@b.com", passwordHash := "bcrypt(secret1)",
    name := none, role := "USER", createdAt := "t0", updatedAt := "t0" }

/-- Tests whether a runtime value is a string. -/
def JVal.isString : JVal → Bool
  | .str _ => true
  | _ => false

/-- C3: for every user row, the serialized public profile returned by a
successful registration carries exactly the keys id, email, name, role,
createdAt, updatedAt and in particular never a passwordHash key; the
login success body carries exactly the keys user and accessToken, with
the same six keys inside user. -/
theorem public_profile_never_leaks_password_hash (u : User) (token : String) :
    (toPublicProfile u).map Prod.fst = userResponseExposedKeys
    ∧ "passwordHash" ∉ (toPublicProfile u).map Prod.fst
    ∧ (serializeLoginSuccess u token).map Prod.fst = ["user", "accessToken"]
    ∧ (serializeLoginSuccess u token).head? = some ("user", .obj (toPublicProfile u)) := by
  refine ⟨rfl, ?_, rfl, rfl⟩
  intro h
  simp [toPublicProfile, plainToInstanceExcludeAll, userResponseExposedKeys,
    userPlainObject, List.find?, List.filterMap] at h

/-- C4: a login whose email has no record and a login whose email has a
record but whose password fails the bcrypt comparison return the very
same thrown value, UnauthorizedException with message Invalid
credentials, so the normalized responses are byte-identical with status
401 and the generic message. -/
theorem login_failure_outcomes_identical
    (compare : String → String → Bool) (sign : String → String → String)
    (store : List User) (dtoMissing dtoWrong : LoginData) (u : User)
    (timestamp path : String)
    (hMissing : findByEmail store dtoMissing.email = none)
    (hFound : findByEmail store dtoWrong.email = some u)
    (hMismatch : compare dtoWrong.password u.passwordHash = false) :
    login compare sign store dtoMissing = login compare sign store dtoWrong
    ∧ login compare sign store dtoMissing
        = .error (unauthorizedException "Invalid credentials")
    ∧ (globalExceptionFilterCatch
        (unauthorizedException "Invalid credentials") timestamp path).statusCode
        = 401
    ∧ (globalExceptionFilterCatch
        (unauthorizedException "Invalid credentials") timestamp path).message
        = .str "Invalid credentials" := by
  unfold login
  rw [hMissing, hFound]
  simp [hMismatch, globalExceptionFilterCatch, unauthorizedException]

/-- Witness for C4 at a concrete store: the user a@b.com exists with the
digest of secret1; logging in as nobody@x.com and logging in as a@b.com
with the password wrong are indistinguishable. -/
theorem login_failure_outcomes_identical_witness :
    login compareModel signModel [sampleUser] ⟨"nobody@x.com", "x"⟩
      = login compareModel signModel [sampleUser] ⟨"a@b.com", "wrong"⟩
    ∧ login compareModel signModel [sampleUser] ⟨"nobody@x.com", "x"⟩
        = .error (unauthorizedException "Invalid credentials")
    ∧ (globalExceptionFilterCatch
        (unauthorizedException "Invalid credentials") "t" "/auth/login").statusCode
        = 401
    ∧ (globalExceptionFilterCatch
        (unauthorizedException "Invalid credentials") "t" "/auth/login").message
        = .str "Invalid credentials" :=
  login_failure_outcomes_identical compareModel signModel [sampleUser]
    ⟨"nobody@x.com", "x"⟩ ⟨"a@b.com", "wrong"⟩ sampleUser "t" "/auth/login"
    (by decide) (by decide) (by decide)

/-- C5: registering an email that already has a record in the store
fails with ConflictException carrying Email already exists, normalized to
status 409, and returns the store unchanged — no write happens. -/
theorem register_existing_email_conflict_no_write
    (hash : String → HashOutcome) (newId ts : String) (store : List User)
    (dto : RegisterData) (u : User) (timestamp path : String)
    (hExists : findByEmail store dto.email = some u) :
    register hash newId ts store dto
      = (.error (conflictException "Email already exists"), store)
    ∧ (globalExceptionFilterCatch
        (conflictException "Email already exists") timestamp path).statusCode
        = 409
    ∧ (globalExceptionFilterCatch
        (conflictException "Email already exists") timestamp path).message
        = .str "Email already exists" := by
  unfold register registerAt
  rw [hExists]
  simp [globalExceptionFilterCatch, conflictException]

/-- Witness for C5: registering a@b.com again over a store that already
holds that email yields the 409 conflict and leaves the store as it was. -/
theorem register_existing_email_conflict_no_write_witness :
    register hashModel "u2" "t1" [sampleUser] ⟨"a@b.com", "secret1", none⟩
      = (.error (conflictException "Email already exists"), [sampleUser])
    ∧ (globalExceptionFilterCatch
        (conflictException "Email already exists") "t" "/auth/register").statusCode
        = 409
    ∧ (globalExceptionFilterCatch
        (conflictException "Email already exists") "t" "/auth/register").message
        = .str "Email already exists" :=
  register_existing_email_conflict_no_write hashModel "u2" "t1" [sampleUser]
    ⟨"a@b.com", "secret1", none⟩ sampleUser "t" "/auth/register" (by decide)

/-- C9: when the email is free and bcrypt.hash rejects, register rethrows
InternalServerErrorException with message Failed to hash password,
normalized to status 500, and returns the store unchanged — nothing is
persisted, in particular no plaintext and no weaker digest. -/
theorem register_hash_failure_fatal_no_write
    (hash : String → HashOutcome) (newId ts : String) (store : List User)
    (dto : RegisterData) (timestamp path : String)
    (hFree : findByEmail store dto.email = none)
    (hFail : hash dto.password = .error) :
    register hash newId ts store dto
      = (.error (internalServerErrorException "Failed to hash password"), store)
    ∧ (globalExceptionFilterCatch
        (internalServerErrorException "Failed to hash password") timestamp
        path).statusCode = 500 := by
  unfold register registerAt
  rw [hFree, hFail]
  simp [globalExceptionFilterCatch, internalServerErrorException]

/-- Witness for C9: a hasher that always rejects makes registration of a
fresh email fail with the 500 internal error and leave the empty store
empty. -/
theorem register_hash_failure_fatal_no_write_witness :
    register (fun _ => .error) "u1" "t1" [] ⟨"a@b.com", "secret1", none⟩
      = (.error (internalServerErrorException "Failed to hash password"), [])
    ∧ (globalExceptionFilterCatch
        (internalServerErrorException "Failed to hash password") "t"
        "/auth/register").statusCode = 500 :=
  register_hash_failure_fatal_no_write (fun _ => .error) "u1" "t1" []
    ⟨"a@b.com", "secret1", none⟩ "t" "/auth/register" rfl rfl

/-- C10: a successful registration persists exactly one new row whose
name went through the `name || null` coercion: an absent name and the
empty string both store null, any other string is stored unchanged. -/
theorem register_name_empty_string_stored_as_null
    (hash : String → HashOutcome) (newId ts digest : String)
    (store : List User) (dto : RegisterData)
    (hFree : findByEmail store dto.email = none)
    (hHash : hash dto.password = .ok digest) :
    (register hash newId ts store dto).2
      = store ++ [{ id := newId, email := dto.email, passwordHash := digest,
                    name := coerceName dto.name, role := "USER",
                    createdAt := ts, updatedAt := ts }]
    ∧ coerceName none = none
    ∧ coerceName (some "") = none
    ∧ (∀ s, s ≠ "" → coerceName (some s) = some s) := by
  refine ⟨?_, rfl, rfl, ?_⟩
  · unfold register registerAt
    rw [hFree, hHash]
    simp only [findByEmail] at hFree
    simp [prismaUserCreate, hFree]
  · intro s hs
    simp [coerceName, hs]

/-- Witness for C10: registering with name given as the empty string
stores a row whose name is null. -/
theorem register_name_empty_string_stored_as_null_witness :
    (register hashModel "u1" "t1" [] ⟨"a@b.com", "secret1", some ""⟩).2
      = [] ++ [{ id := "u1", email := "a@b.com",
                 passwordHash := "bcrypt(secret1)",
                 name := coerceName (some ""), role := "USER",
                 createdAt := "t1", updatedAt := "t1" }]
    ∧ coerceName none = none
    ∧ coerceName (some "") = none
    ∧ (∀ s, s ≠ "" → coerceName (some s) = some s) :=
  register_name_empty_string_stored_as_null hashModel "u1" "t1"
    "bcrypt(secret1)" [] ⟨"a@b.com", "secret1", some ""⟩ rfl rfl

/-- Counterexample to C2: a database driver failure thrown as a plain
Error reaches the filter, and its driver-level message text is copied
into the response body verbatim — the body message equals the exception
message and is not the generic one, refuting that internal detail never
reaches the client. -/
theorem unknown_error_detail_reaches_client :
    (globalExceptionFilterCatch
      (.jsError "connect ECONNREFUSED 127.0.0.1:5432"
        "Error: connect ECONNREFUSED at TCPConnectWrap") "t"
      "/auth/login").message
      = .str "connect ECONNREFUSED 127.0.0.1:5432"
    ∧ (globalExceptionFilterCatch
        (.jsError "connect ECONNREFUSED 127.0.0.1:5432"
          "Error: connect ECONNREFUSED at TCPConnectWrap") "t"
        "/auth/login").message
        ≠ .str "Internal server error" := by
  refine ⟨rfl, ?_⟩
  intro h
  injection h with h2
  exact absurd h2 (by decide)

/-- C2 as amended: an unclassified error is normalized to status 500; the
stack trace never influences the response (only the message does), and
the generic message is produced exactly when the thrown value is not an
Error instance — for an Error instance the exception message text itself
becomes the response message. -/
theorem unknown_error_normalization (m s v timestamp path : String) :
    (globalExceptionFilterCatch (.jsError m s) timestamp path).statusCode = 500
    ∧ (globalExceptionFilterCatch (.jsError m s) timestamp path).message
        = .str m
    ∧ (∀ s2, globalExceptionFilterCatch (.jsError m s) timestamp path
        = globalExceptionFilterCatch (.jsError m s2) timestamp path)
    ∧ (globalExceptionFilterCatch (.nonError v) timestamp path).statusCode
        = 500
    ∧ (globalExceptionFilterCatch (.nonError v) timestamp path).message
        = .str "Internal server error" := by
  simp [globalExceptionFilterCatch]

/-- Counterexample to C8: on the validation failure path the normalized
body carries the ARRAY of constraint messages under the message key, not
a string, so the envelope does not match a shape typing message as
string. -/
theorem error_envelope_message_not_always_string :
    (globalExceptionFilterCatch
      (validationPipeException ["property extraField should not exist"]) "t"
      "/auth/register").message
      = .arr [.str "property extraField should not exist"]
    ∧ ((globalExceptionFilterCatch
        (validationPipeException ["property extraField should not exist"]) "t"
        "/auth/register").message).isString = false := ⟨rfl, rfl⟩

/-- C8 as amended: every failure is normalized to a body with exactly the
keys statusCode, message, timestamp, path, plus errors exactly when the
thrown HttpException carried an object body with a defined errors member;
the message key holds the value carried by the exception, which on the
validation path is an array of constraint strings rather than a string. -/
theorem error_envelope_uniform_keys (t : Thrown) (timestamp path : String) :
    (serializeErrorResponse
        (globalExceptionFilterCatch t timestamp path)).map Prod.fst
      = (if (globalExceptionFilterCatch t timestamp path).errors.isSome then
          ["statusCode", "message", "timestamp", "path", "errors"]
        else
          ["statusCode", "message", "timestamp", "path"])
    ∧ (globalExceptionFilterCatch t timestamp path).errors
        = (match t with
           | .httpException _ (.obj _ errs) _ => errs
           | _ => none) := by
  match t with
  | .httpException status body fallbackMessage =>
    match body with
    | .obj msg errs =>
      cases errs <;>
        simp [globalExceptionFilterCatch, serializeErrorResponse]
    | .str s => simp [globalExceptionFilterCatch, serializeErrorResponse]
  | .jsError m s => simp [globalExceptionFilterCatch, serializeErrorResponse]
  | .nonError v => simp [globalExceptionFilterCatch, serializeErrorResponse]

/-- Counterexample to C7: emails are not case-normalized. After
registering A@b.com, logging in as a@b.com with the registered password
is rejected with Invalid credentials, and a second registration of
a@b.com succeeds, leaving two records whose emails differ only in case. -/
theorem email_case_difference_distinct_records :
    login compareModel signModel
      (register hashModel "u1" "t0" [] ⟨"A@b.com", "secret1", none⟩).2
      ⟨"a@b.com", "secret1"⟩
      = .error (unauthorizedException "Invalid credentials")
    ∧ ((register hashModel "u2" "t1"
        (register hashModel "u1" "t0" [] ⟨"A@b.com", "secret1", none⟩).2
        ⟨"a@b.com", "secret1", none⟩).2).map User.email
        = ["A@b.com", "a@b.com"] :=
  ⟨rfl, rfl⟩

/-- C7 as amended: the login key is the verbatim email string with exact
case-sensitive matching. Lookup returns only a record whose stored email
equals the queried string exactly, and registration preserves the
invariant of at most one record per exact email string. -/
theorem email_exact_match_uniqueness
    (hash : String → HashOutcome) (newId ts : String) (store : List User)
    (dto : RegisterData) (e : String) (u : User)
    (hFind : findByEmail store e = some u)
    (hNodup : (store.map User.email).Nodup) :
    u.email = e
    ∧ (((register hash newId ts store dto).2).map User.email).Nodup := by
  constructor
  · simp only [findByEmail] at hFind
    have hp := List.find?_some hFind
    simpa using hp
  · unfold register registerAt
    cases hF : findByEmail store dto.email with
    | some w => simpa using hNodup
    | none =>
      cases hH : hash dto.password with
      | error => simpa using hNodup
      | ok digest =>
        simp only [findByEmail] at hF
        simp only [prismaUserCreate, hF, Option.isSome_none,
          Bool.false_eq_true, if_false]
        have hnotmem : dto.email ∉ store.map User.email := by
          intro hmem
          obtain ⟨v, hv, hveq⟩ := List.mem_map.mp hmem
          have hfalse := List.find?_eq_none.mp hF v hv
          simp [hveq] at hfalse
        simp [List.nodup_append, hNodup, hnotmem]

/-- Witness for C7 as amended: looking up a@b.com in the sample store
returns the record stored under exactly that string, and registering a
fresh email keeps the emails duplicate-free. -/
theorem email_exact_match_uniqueness_witness :
    sampleUser.email = "a@b.com"
    ∧ (((register hashModel "u2" "t1" [sampleUser]
        ⟨"c@d.com", "pw1234", none⟩).2).map User.email).Nodup :=
  email_exact_match_uniqueness hashModel "u2" "t1" [sampleUser]
    ⟨"c@d.com", "pw1234", none⟩ "a@b.com" sampleUser rfl (by decide)

/-- When a raw body holds a key outside the declared field list, the
forbidNonWhitelisted pass of the ValidationPipe produces at least one
constraint message. -/
theorem whitelistViolations_ne_nil (declared : List String)
    (raw : List (String × JVal)) (key : String) (v : JVal)
    (hMem : (key, v) ∈ raw) (hUnknown : key ∉ declared) :
    whitelistViolations declared raw ≠ [] := by
  unfold whitelistViolations
  intro h
  rw [List.map_eq_nil_iff] at h
  have hmemf : (key, v) ∈ raw.filter fun p => !(declared.contains p.1) :=
    List.mem_filter.mpr ⟨hMem, by simp [hUnknown]⟩
  rw [h] at hmemf
  exact absurd hmemf (List.not_mem_nil _)

/-- C6: a raw register body and a raw login body each holding a field not
declared on the respective DTO are rejected by the global ValidationPipe
with the BadRequestException of the collected constraint messages, which
is nonempty, normalized to status 400; the store is untouched, so no
business logic ran. -/
theorem unknown_field_rejected_before_business_logic
    ( is_email : String → Bool) (hash : String → HashOutcome)
    (compare : String → String → Bool) (sign : String → String → String)
    (newId ts : String) (store : List User)
    (rawR rawL : List (String × JVal)) (keyR keyL : String) (vR vL : JVal)
    (timestamp path : String)
    (hMemR : (keyR, vR) ∈ rawR) (hUnknownR : keyR ∉ registerDeclaredFields)
    (hMemL : (keyL, vL) ∈ rawL) (hUnknownL : keyL ∉ loginDeclaredFields) :
    handleRegister hash is_email newId ts store rawR
      = (.error (validationPipeException (registerViolations is_email rawR)),
         store)
    ∧ registerViolations is_email rawR ≠ []
    ∧ handleLogin compare sign store rawL
        = .error (validationPipeException (loginViolations rawL))
    ∧ loginViolations rawL ≠ []
    ∧ (globalExceptionFilterCatch
        (validationPipeException (registerViolations is_email rawR))
        timestamp path).statusCode = 400 := by
  have hneR : registerViolations is_email rawR ≠ [] := by
    intro h
    unfold registerViolations at h
    exact absurd
      (List.append_eq_nil.mp ((List.append_eq_nil.mp
        ((List.append_eq_nil.mp h).1)).1)).1
      (whitelistViolations_ne_nil registerDeclaredFields rawR keyR vR hMemR
        hUnknownR)
  have hneL : loginViolations rawL ≠ [] := by
    intro h
    unfold loginViolations at h
    exact absurd (List.append_eq_nil.mp h).1
      (whitelistViolations_ne_nil loginDeclaredFields rawL keyL vL hMemL
        hUnknownL)
  refine ⟨?_, hneR, ?_, hneL, ?_⟩
  · unfold handleRegister validateRegisterBody
    cases hV : registerViolations is_email rawR with
    | nil => exact absurd hV hneR
    | cons a as => rfl
  · unfold handleLogin validateLoginBody
    cases hV : loginViolations rawL with
    | nil => exact absurd hV hneL
    | cons a as => rfl
  · simp [globalExceptionFilterCatch, validationPipeException]

/-- Witness for C6: the spec scenario body of email, password and
extraField is rejected on both endpoints with a 400 and leaves the store
empty. -/
theorem unknown_field_rejected_before_business_logic_witness :
    handleRegister hashModel (fun _ => true) "u1" "t1" []
      [("email", .str "a@b.com"), ("password", .str "secret1"),
       ("extraField", .str "x")]
      = (.error (validationPipeException (registerViolations (fun _ => true)
          [("email", .str "a@b.com"), ("password", .str "secret1"),
           ("extraField", .str "x")])), [])
    ∧ registerViolations (fun _ => true)
        [("email", .str "a@b.com"), ("password", .str "secret1"),
         ("extraField", .str "x")] ≠ []
    ∧ handleLogin compareModel signModel []
        [("email", .str "a@b.com"), ("password", .str "secret1"),
         ("extraField", .str "x")]
        = .error (validationPipeException (loginViolations
            [("email", .str "a@b.com"), ("password", .str "secret1"),
             ("extraField", .str "x")]))
    ∧ loginViolations
        [("email", .str "a@b.com"), ("password", .str "secret1"),
         ("extraField", .str "x")] ≠ []
    ∧ (globalExceptionFilterCatch
        (validationPipeException (registerViolations (fun _ => true)
          [("email", .str "a@b.com"), ("password", .str "secret1"),
           ("extraField", .str "x")])) "t" "/auth/register").statusCode
        = 400 :=
  unknown_field_rejected_before_business_logic (fun _ => true) hashModel
    compareModel signModel "u1" "t1" []
    [("email", .str "a@b.com"), ("password", .str "secret1"),
     ("extraField", .str "x")]
    [("email", .str "a@b.com"), ("password", .str "secret1"),
     ("extraField", .str "x")]
    "extraField" "extraField" (.str "x") (.str "x") "t" "/auth/register"
    (List.Mem.tail _ (List.Mem.tail _ (List.Mem.head _)))
    (by decide)
    (List.Mem.tail _ (List.Mem.tail _ (List.Mem.head _)))
    (by decide)

/-- C1 evaluated at the race interleaving the spec describes: both
pre-checks read the empty store, the first insert commits, and the second
insert hits the unique constraint. The winner succeeds; the loser does
NOT get ConflictError — the source wraps usersRepository.create in no
try/catch, so the duplicate-key rejection escapes as a plain driver
error, which the Error Normalizer turns into a 500 with the driver
message instead of the 409 conflict the spec and the repository data
layer guidance require. -/
theorem registration_race_duplicate_key_escapes_unmapped :
    (registerAt hashModel "u1" "t1" [] []
        ⟨"race@example.com", "secret1", none⟩).1
      = .ok (toPublicProfile
          { id := "u1", email := "race@example.com",
            passwordHash := "bcrypt(secret1)", name := none, role := "USER",
            createdAt := "t1", updatedAt := "t1" })
    ∧ (registerAt hashModel "u2" "t2" []
        (registerAt hashModel "u1" "t1" [] []
          ⟨"race@example.com", "secret1", none⟩).2
        ⟨"race@example.com", "secret1", none⟩).1
        = .error prismaUniqueViolation
    ∧ (globalExceptionFilterCatch prismaUniqueViolation "t"
        "/auth/register").statusCode = 500
    ∧ (globalExceptionFilterCatch prismaUniqueViolation "t"
        "/auth/register").message = .str prismaUniqueViolationMessage
    ∧ prismaUniqueViolation ≠ conflictException "Email already exists" := by
  refine ⟨rfl, rfl, rfl, rfl, ?_⟩
  intro h
  exact Thrown.noConfusion h
